import Mathlib

/-! Administration request handling of a mesh-radio node.

A shallow embedding of `src/modules/AdminModule.cpp`.

* C strings are `String`; `*buf` (first byte non-zero) is `buf ≠ ""`, and
  `strcpy(dst, src)` is assignment of the whole string.
* The process-wide globals touched by the file (`owner`, `radioConfig`,
  `moduleConfig`, the channel table behind `channels`, `rebootAtMsec`,
  `shutdownAtMsec`) and the member `myReply` form the record `AdminState`.
* Every call the file makes to one of its own handlers or to a collaborator
  with a side effect (`channels.setChannel`, `service.reloadConfig`,
  `service.reloadOwner`, `channels.onConfigChanged`,
  `nodeDB.saveChannelsToDisk`, `handleAdminMessageForAllPlugins`) is appended,
  in program order, to the ghost log `AdminState.calls`.  The bodies of the
  collaborators live in other translation units; what they do to the rest of
  the node is not part of this embedding.  The one exception is
  `channels.setChannel`, whose effect on the channel table is a parameter.
* Declarations the file takes from headers (`MAX_NUM_CHANNELS`, `millis()`,
  `getPref_*`, the channel-table accessors, the plugin fan-out, the
  `PORTDUINO` build flag) are the fields of `Collaborators`.
* `uint32_t` and `int32_t` arithmetic is arithmetic on `Int` followed by an
  explicit wrap to 32 bits; `millis()`, `rebootAtMsec` and `shutdownAtMsec` are
  `uint32_t`, and an `int` product that leaves the `int` range wraps around.
* Debug output (`DEBUG_MSG`, `Serial.println`) is not modelled.
-/

namespace Meshtastic

/-! ## Machine integers -/

/-- Conversion of an integer to `uint32_t`: reduction modulo `2^32`. -/
def wrapU32 (z : Int) : Nat := (z % 4294967296).toNat

/-- Conversion of an integer to `int32_t`/`int` (two's complement wrap-around). -/
def wrapI32 (z : Int) : Int :=
  if z % 4294967296 < 2147483648 then z % 4294967296 else z % 4294967296 - 4294967296

/-! ## C strings -/

/-- Library function `strcmp` on the characters of two strings: zero when they are equal,
negative or positive according to the first position where they differ. -/
def strcmpChars : List Char → List Char → Int
  | [], [] => 0
  | [], _ :: _ => -1
  | _ :: _, [] => 1
  | c :: cs, d :: ds =>
    if c = d then strcmpChars cs ds else if c.toNat < d.toNat then -1 else 1

/-- Library function `strcmp`. -/
def strcmp (a b : String) : Int := strcmpChars a.data b.data

/-- Source: `static const char *secretReserved = "sekrit";` -/
def secretReserved : String := "sekrit"

/-- Source: `hideSecret`: if `buf` is not empty, change it to the reserved word. The result
is the content of `buf` afterwards. -/
def hideSecret (buf : String) : String :=
  if buf ≠ "" then secretReserved else buf

/-- Source: `writeSecret`: if `buf` is the reserved word, replace it with `currentVal`. The
result is the content of `buf` afterwards. -/
def writeSecret (buf currentVal : String) : String :=
  if strcmp buf secretReserved = 0 then currentVal else buf

/-! ## Message types (generated protobuf structures, reduced to the fields the file uses) -/

/-- Record `User`: the owner record. -/
structure User where
  id : String
  long_name : String
  short_name : String
  is_licensed : Bool
  deriving DecidableEq, Repr

/-- Record `RadioConfig.preferences`. `other` stands for the preference fields the file does
not name. -/
structure RadioConfig_UserPreferences where
  ls_secs : Nat
  phone_timeout_secs : Nat
  wifi_ssid : String
  wifi_password : String
  other : List Nat
  deriving DecidableEq, Repr

/-- Record `RadioConfig`. -/
structure RadioConfig where
  preferences : RadioConfig_UserPreferences
  deriving DecidableEq, Repr

/-- Record `Channel`: its signed `index` and the remaining content. -/
structure Channel where
  index : Int
  settings : List Nat
  deriving DecidableEq, Repr

/-- Enumeration `AdminMessage_ConfigType`; `DEVICE_CONFIG` is its zero value. -/
inductive AdminMessage_ConfigType where
  | DEVICE_CONFIG | GPS_CONFIG | POWER_CONFIG | WIFI_CONFIG | DISPLAY_CONFIG | LORA_CONFIG
  deriving DecidableEq, Repr

/-- Enumeration `AdminMessage_ModuleConfigType`; `MQTT_CONFIG` is its zero value. -/
inductive AdminMessage_ModuleConfigType where
  | MQTT_CONFIG | SERIAL_CONFIG | EXTNOTIF_CONFIG | STOREFORWARD_CONFIG | RANGETEST_CONFIG
  | TELEMETRY_CONFIG | CANNEDMSG_CONFIG
  deriving DecidableEq, Repr

/-- Values of `Config.which_payloadVariant`; `unset` is the zero of a fresh structure. -/
inductive Config_tag where
  | unset | device_config | gps_config | power_config | wifi_config | display_config
  | lora_config
  deriving DecidableEq, Repr

/-- Record `Config`: the discriminant and the (uninterpreted) payload. -/
structure Config where
  which_payloadVariant : Config_tag
  payloadVariant : List Nat
  deriving DecidableEq, Repr

/-- Values of `ModuleConfig.which_payloadVariant`; `unset` is the zero of a fresh structure. -/
inductive ModuleConfig_tag where
  | unset | mqtt_config | serial_config | external_notification_config | store_forward_config
  | range_test_config | telemetry_config | canned_message_config
  deriving DecidableEq, Repr

/-- Record `ModuleConfig`: the discriminant, the `telemetry_config` member of the payload
(uninterpreted content) and the bytes of the other members. -/
structure ModuleConfig where
  which_payloadVariant : ModuleConfig_tag
  telemetry_config : List Nat
  payloadVariant : List Nat
  deriving DecidableEq, Repr

/-- Constant `Config_init_default`. -/
def Config_init_default : Config := ⟨.unset, []⟩

/-- Constant `ModuleConfig_init_default`. -/
def ModuleConfig_init_default : ModuleConfig := ⟨.unset, [], []⟩

/-- Tagged union `AdminMessage`: `which_variant` together with the active member.
`unset` is `AdminMessage_init_default`; `other tag` is any variant without a name here. -/
inductive AdminMessage where
  | unset
  | get_owner_request
  | get_radio_request
  | get_config_request (t : AdminMessage_ConfigType)
  | get_module_config_request (t : AdminMessage_ModuleConfigType)
  | get_channel_request (n : Nat)
  | set_owner (o : User)
  | set_radio (r : RadioConfig)
  | set_config (c : Config)
  | set_module_config (c : ModuleConfig)
  | set_channel (cc : Channel)
  | reboot_seconds (s : Int)
  | shutdown_seconds (s : Int)
  | exit_simulator
  | get_owner_response (o : User)
  | get_radio_response (r : RadioConfig)
  | get_config_response (c : Config)
  | get_module_config_response (c : ModuleConfig)
  | get_channel_response (c : Channel)
  | other (tag : Nat)
  deriving DecidableEq, Repr

/-- Constant `AdminMessage_init_default`. -/
def AdminMessage_init_default : AdminMessage := .unset

/-- Read of the member `get_config_request`: the request value when that member is active,
the zero enumerator in a message that is still `AdminMessage_init_default`. -/
def AdminMessage.read_get_config_request : AdminMessage → AdminMessage_ConfigType
  | .get_config_request t => t
  | _ => .DEVICE_CONFIG

/-- Read of the member `get_module_config_request`: the request value when that member is
active, the zero enumerator in a message that is still `AdminMessage_init_default`. -/
def AdminMessage.read_get_module_config_request : AdminMessage → AdminMessage_ModuleConfigType
  | .get_module_config_request t => t
  | _ => .MQTT_CONFIG

/-- Record `MeshPacket.decoded`. -/
structure Data where
  want_response : Bool
  deriving DecidableEq, Repr

/-- Record `MeshPacket`: the packet that carried the request. -/
structure MeshPacket where
  id : Nat
  decoded : Data
  deriving DecidableEq, Repr

/-- Enumeration `Routing_Error` (the values the file uses). -/
inductive Routing_Error where
  | NONE | BAD_REQUEST
  deriving DecidableEq, Repr

/-- Enumeration `AdminMessageHandleResult`. -/
inductive AdminMessageHandleResult where
  | NOT_HANDLED | HANDLED | HANDLED_WITH_RESPONSE
  deriving DecidableEq, Repr

/-- Content of the reply slot `myReply`: the packet built by `allocDataProtobuf(r)` or by
`allocErrorResponse(err, &mp)`. -/
inductive Reply where
  | allocDataProtobuf (r : AdminMessage)
  | allocErrorResponse (err : Routing_Error) (mp : MeshPacket)
  deriving DecidableEq, Repr

/-- One entry of the ghost call log. -/
inductive Call where
  | handleGetOwner
  | handleGetRadio
  | handleGetConfig
  | handleGetModuleConfig
  | handleGetChannel (channelIndex : Nat)
  | handleSetOwner (o : User)
  | handleSetRadio (r : RadioConfig)
  | handleSetConfig (c : Config)
  | handleSetModuleConfig (c : ModuleConfig)
  | handleSetChannel (cc : Channel)
  | channels_setChannel (cc : Channel)
  | channels_onConfigChanged
  | nodeDB_saveChannelsToDisk
  | service_reloadConfig
  | service_reloadOwner
  | handleAdminMessageForAllPlugins (r : AdminMessage)
  deriving DecidableEq, Repr

/-! ## State and collaborators -/

/-- The state the file reads and writes, with the ghost call log. -/
structure AdminState where
  owner : User
  radioConfig : RadioConfig
  moduleConfig : ModuleConfig
  channels : List Channel
  rebootAtMsec : Nat
  shutdownAtMsec : Nat
  myReply : Option Reply
  calls : List Call
  deriving DecidableEq, Repr

/-- What the file takes from headers and other translation units. `millis` is the value
the clock returns during the call. -/
structure Collaborators where
  MAX_NUM_CHANNELS : Nat
  PORTDUINO : Bool
  millis : Nat
  getPref_ls_secs : RadioConfig → Nat
  getPref_phone_timeout_secs : RadioConfig → Nat
  getByIndex : List Channel → Nat → Channel
  setChannel : Channel → List Channel → List Channel
  handleAdminMessageForAllPlugins :
    MeshPacket → AdminMessage → AdminMessage → AdminMessageHandleResult × AdminMessage

/-- Append one entry to the ghost call log. -/
def AdminState.log (s : AdminState) (c : Call) : AdminState :=
  { s with calls := s.calls ++ [c] }

/-! ## Setter methods -/

/-- Source: `AdminModule::handleSetOwner`. `changed` is the C `int` accumulator; `|=` is
bitwise or. -/
def handleSetOwner (o : User) (s : AdminState) : AdminState :=
  let s0 := s.log (.handleSetOwner o)
  let changed0 : Int := 0
  let changed1 :=
    if o.long_name ≠ "" then Int.lor changed0 (strcmp s0.owner.long_name o.long_name)
    else changed0
  let s1 :=
    if o.long_name ≠ "" then { s0 with owner := { s0.owner with long_name := o.long_name } }
    else s0
  let changed2 :=
    if o.short_name ≠ "" then Int.lor changed1 (strcmp s1.owner.short_name o.short_name)
    else changed1
  let s2 :=
    if o.short_name ≠ "" then { s1 with owner := { s1.owner with short_name := o.short_name } }
    else s1
  let changed3 :=
    if o.id ≠ "" then Int.lor changed2 (strcmp s2.owner.id o.id) else changed2
  let s3 :=
    if o.id ≠ "" then { s2 with owner := { s2.owner with id := o.id } } else s2
  let changed4 := if s3.owner.is_licensed ≠ o.is_licensed then 1 else changed3
  let s4 :=
    if s3.owner.is_licensed ≠ o.is_licensed then
      { s3 with owner := { s3.owner with is_licensed := o.is_licensed } }
    else s3
  if changed4 ≠ 0 then s4.log .service_reloadOwner else s4

/-- Source: `AdminModule::handleSetRadio`. -/
def handleSetRadio (r : RadioConfig) (s : AdminState) : AdminState :=
  let s0 := s.log (.handleSetRadio r)
  let r1 : RadioConfig :=
    { r with preferences :=
        { r.preferences with
            wifi_password :=
              writeSecret r.preferences.wifi_password s0.radioConfig.preferences.wifi_password } }
  let s1 := { s0 with radioConfig := r1 }
  s1.log .service_reloadConfig

/-- Source: `AdminModule::handleSetConfig`; the `switch` only selects a debug message. -/
def handleSetConfig (c : Config) (s : AdminState) : AdminState :=
  let s0 := s.log (.handleSetConfig c)
  s0.log .service_reloadConfig

/-- Source: `AdminModule::handleSetModuleConfig`; the `switch` only selects a debug
message. -/
def handleSetModuleConfig (c : ModuleConfig) (s : AdminState) : AdminState :=
  let s0 := s.log (.handleSetModuleConfig c)
  s0.log .service_reloadConfig

/-- Source: `AdminModule::handleSetChannel`. -/
def handleSetChannel (E : Collaborators) (cc : Channel) (s : AdminState) : AdminState :=
  let s0 := s.log (.handleSetChannel cc)
  let s1 := { s0 with channels := E.setChannel cc s0.channels }.log (.channels_setChannel cc)
  if cc.index = 0 then
    s1.log .service_reloadConfig
  else
    (s1.log .channels_onConfigChanged).log .nodeDB_saveChannelsToDisk

/-! ## Getter methods -/

/-- Source: `AdminModule::handleGetOwner`. -/
def handleGetOwner (req : MeshPacket) (s : AdminState) : AdminState :=
  let s0 := s.log .handleGetOwner
  if req.decoded.want_response then
    { s0 with myReply := some (.allocDataProtobuf (.get_owner_response s0.owner)) }
  else s0

/-- Source: `AdminModule::handleGetRadio`. -/
def handleGetRadio (E : Collaborators) (req : MeshPacket) (s : AdminState) : AdminState :=
  let s0 := s.log .handleGetRadio
  if req.decoded.want_response then
    let get_radio_response : RadioConfig :=
      { s0.radioConfig with preferences :=
          { s0.radioConfig.preferences with
              ls_secs := E.getPref_ls_secs s0.radioConfig
              phone_timeout_secs := E.getPref_phone_timeout_secs s0.radioConfig
              wifi_password := hideSecret s0.radioConfig.preferences.wifi_password } }
    { s0 with myReply := some (.allocDataProtobuf (.get_radio_response get_radio_response)) }
  else s0

/-- Source: `AdminModule::handleGetConfig`. The `switch` reads `get_config_request` of the
local message `r`, which was just set to `AdminMessage_init_default`. -/
def handleGetConfig (req : MeshPacket) (s : AdminState) : AdminState :=
  let s0 := s.log .handleGetConfig
  let r := AdminMessage_init_default
  if req.decoded.want_response then
    let get_config_response : Config :=
      match r.read_get_config_request with
      | .DEVICE_CONFIG => { Config_init_default with which_payloadVariant := .device_config }
      | .GPS_CONFIG => { Config_init_default with which_payloadVariant := .gps_config }
      | .POWER_CONFIG => { Config_init_default with which_payloadVariant := .power_config }
      | .WIFI_CONFIG => { Config_init_default with which_payloadVariant := .wifi_config }
      | .DISPLAY_CONFIG => { Config_init_default with which_payloadVariant := .display_config }
      | .LORA_CONFIG => { Config_init_default with which_payloadVariant := .lora_config }
    { s0 with myReply := some (.allocDataProtobuf (.get_config_response get_config_response)) }
  else s0

/-- Source: `AdminModule::handleGetModuleConfig`. The `switch` reads
`get_module_config_request` of the local message `r`, which was just set to
`AdminMessage_init_default`. -/
def handleGetModuleConfig (req : MeshPacket) (s : AdminState) : AdminState :=
  let s0 := s.log .handleGetModuleConfig
  let r := AdminMessage_init_default
  if req.decoded.want_response then
    let get_module_config_response : ModuleConfig :=
      match r.read_get_module_config_request with
      | .MQTT_CONFIG =>
        { ModuleConfig_init_default with which_payloadVariant := .mqtt_config }
      | .SERIAL_CONFIG =>
        { ModuleConfig_init_default with which_payloadVariant := .serial_config }
      | .EXTNOTIF_CONFIG =>
        { ModuleConfig_init_default with which_payloadVariant := .external_notification_config }
      | .STOREFORWARD_CONFIG =>
        { ModuleConfig_init_default with which_payloadVariant := .store_forward_config }
      | .RANGETEST_CONFIG =>
        { ModuleConfig_init_default with which_payloadVariant := .range_test_config }
      | .TELEMETRY_CONFIG =>
        { ModuleConfig_init_default with
            which_payloadVariant := .telemetry_config
            telemetry_config := s0.moduleConfig.telemetry_config }
      | .CANNEDMSG_CONFIG =>
        { ModuleConfig_init_default with which_payloadVariant := .canned_message_config }
    { s0 with
        myReply := some (.allocDataProtobuf (.get_module_config_response get_module_config_response)) }
  else s0

/-- Source: `AdminModule::handleGetChannel`. -/
def handleGetChannel (E : Collaborators) (req : MeshPacket) (channelIndex : Nat)
    (s : AdminState) : AdminState :=
  let s0 := s.log (.handleGetChannel channelIndex)
  if req.decoded.want_response then
    { s0 with
        myReply :=
          some (.allocDataProtobuf (.get_channel_response (E.getByIndex s0.channels channelIndex))) }
  else s0

/-! ## The dispatcher -/

/-- The `default:` branch of the `switch` in `AdminModule::handleReceivedProtobuf`. -/
def handleReceivedProtobuf_default (E : Collaborators) (mp : MeshPacket) (r : AdminMessage)
    (s : AdminState) : AdminState :=
  let response := AdminMessage_init_default
  let s0 := s.log (.handleAdminMessageForAllPlugins r)
  let out := E.handleAdminMessageForAllPlugins mp r response
  if out.1 = .HANDLED_WITH_RESPONSE then
    { s0 with myReply := some (.allocDataProtobuf out.2) }
  else s0

/-- Source: `AdminModule::handleReceivedProtobuf`. The result is `none` when the process is
ended by `_exit(0)`, otherwise the returned `handled` and the state after the call. -/
def handleReceivedProtobuf (E : Collaborators) (mp : MeshPacket) (r : AdminMessage)
    (s : AdminState) : Option (Bool × AdminState) :=
  let handled := false
  match r with
  | .get_owner_request => some (handled, handleGetOwner mp s)
  | .get_radio_request => some (handled, handleGetRadio E mp s)
  | .get_config_request _ => some (handled, handleGetConfig mp s)
  | .get_module_config_request _ => some (handled, handleGetModuleConfig mp s)
  | .get_channel_request n =>
    let i := wrapU32 ((n : Int) - 1)
    if i ≥ E.MAX_NUM_CHANNELS then
      some (handled, { s with myReply := some (.allocErrorResponse .BAD_REQUEST mp) })
    else
      some (handled, handleGetChannel E mp i s)
  | .set_owner o => some (handled, handleSetOwner o s)
  | .set_radio r => some (handled, handleSetRadio r s)
  | .set_config c => some (handled, handleSetConfig c s)
  | .set_module_config c => some (handled, handleSetModuleConfig c s)
  | .set_channel cc =>
    if cc.index < 0 ∨ cc.index ≥ wrapI32 (E.MAX_NUM_CHANNELS : Int) then
      some (handled, { s with myReply := some (.allocErrorResponse .BAD_REQUEST mp) })
    else
      some (handled, handleSetChannel E cc s)
  | .reboot_seconds sec =>
    let s32 := sec
    some (handled,
      { s with
          rebootAtMsec :=
            if s32 < 0 then 0 else wrapU32 ((E.millis : Int) + wrapI32 (s32 * 1000)) })
  | .shutdown_seconds sec =>
    let s32 := sec
    some (handled,
      { s with
          shutdownAtMsec :=
            if s32 < 0 then 0 else wrapU32 ((E.millis : Int) + wrapI32 (s32 * 1000)) })
  | .exit_simulator =>
    if E.PORTDUINO then none else some (handled, handleReceivedProtobuf_default E mp r s)
  | _ => some (handled, handleReceivedProtobuf_default E mp r s)

/-! ## Classification of request tags -/

/-- The tags with a `case` label in the `switch` of `handleReceivedProtobuf`; the label for
`exit_simulator` exists only in a `PORTDUINO` build. Every other tag takes `default:`. -/
def hasExplicitCase (E : Collaborators) : AdminMessage → Bool
  | .get_owner_request => true
  | .get_radio_request => true
  | .get_config_request _ => true
  | .get_module_config_request _ => true
  | .get_channel_request _ => true
  | .set_owner _ => true
  | .set_radio _ => true
  | .set_config _ => true
  | .set_module_config _ => true
  | .set_channel _ => true
  | .reboot_seconds _ => true
  | .shutdown_seconds _ => true
  | .exit_simulator => E.PORTDUINO
  | _ => false

/-- The tags under the heading "Getters" of the `switch`. -/
def isGetRequest : AdminMessage → Bool
  | .get_owner_request => true
  | .get_radio_request => true
  | .get_config_request _ => true
  | .get_module_config_request _ => true
  | .get_channel_request _ => true
  | _ => false

/-- The response tag that belongs to a configuration family. -/
def configTagOf : AdminMessage_ConfigType → Config_tag
  | .DEVICE_CONFIG => .device_config
  | .GPS_CONFIG => .gps_config
  | .POWER_CONFIG => .power_config
  | .WIFI_CONFIG => .wifi_config
  | .DISPLAY_CONFIG => .display_config
  | .LORA_CONFIG => .lora_config

/-- The response tag that belongs to a module configuration family. -/
def moduleConfigTagOf : AdminMessage_ModuleConfigType → ModuleConfig_tag
  | .MQTT_CONFIG => .mqtt_config
  | .SERIAL_CONFIG => .serial_config
  | .EXTNOTIF_CONFIG => .external_notification_config
  | .STOREFORWARD_CONFIG => .store_forward_config
  | .RANGETEST_CONFIG => .range_test_config
  | .TELEMETRY_CONFIG => .telemetry_config
  | .CANNEDMSG_CONFIG => .canned_message_config

/-! ## Conditions named by the owner claims -/

/-- The trigger condition in the words of the specification: some non-empty incoming string
field differs from the stored one, or the incoming licence flag differs from the stored
flag. -/
def ownerFieldsDiffer (stored o : User) : Prop :=
  (o.long_name ≠ "" ∧ stored.long_name ≠ o.long_name) ∨
    (o.short_name ≠ "" ∧ stored.short_name ≠ o.short_name) ∨
      (o.id ≠ "" ∧ stored.id ≠ o.id) ∨ stored.is_licensed ≠ o.is_licensed

instance ownerFieldsDiffer_decidable (stored o : User) :
    Decidable (ownerFieldsDiffer stored o) := by
  unfold ownerFieldsDiffer
  infer_instance

/-- The merge in the words of the specification: a non-empty incoming string replaces the
stored one, an empty one leaves it, and the licence flag is always taken from the request. -/
def mergeOwner (stored o : User) : User where
  id := if o.id = "" then stored.id else o.id
  long_name := if o.long_name = "" then stored.long_name else o.long_name
  short_name := if o.short_name = "" then stored.short_name else o.short_name
  is_licensed := o.is_licensed

/-! ## A concrete node, for evaluating the handlers on explicit inputs -/

/-- A node with eight channel slots, a table stored as a list, preference getters that
resolve zero to a default, and no plugin that answers administration messages. -/
def sampleCollaborators : Collaborators where
  MAX_NUM_CHANNELS := 8
  PORTDUINO := false
  millis := 5000
  getPref_ls_secs := fun rc => if rc.preferences.ls_secs = 0 then 300 else rc.preferences.ls_secs
  getPref_phone_timeout_secs := fun rc =>
    if rc.preferences.phone_timeout_secs = 0 then 900 else rc.preferences.phone_timeout_secs
  getByIndex := fun table i => table.getD i ⟨0, []⟩
  setChannel := fun cc table => table.set cc.index.toNat cc
  handleAdminMessageForAllPlugins := fun _ _ response => (.NOT_HANDLED, response)

/-- The same node at the last millisecond before the 32-bit clock wraps. -/
def sampleCollaboratorsLate : Collaborators :=
  { sampleCollaborators with millis := 4294967295 }

/-- A channel table with eight entries. -/
def sampleChannels : List Channel :=
  [⟨0, [10]⟩, ⟨1, [11]⟩, ⟨2, [12]⟩, ⟨3, [13]⟩, ⟨4, [14]⟩, ⟨5, [15]⟩, ⟨6, [16]⟩, ⟨7, [17]⟩]

/-- A node state with a non-empty Wi-Fi password and no pending reply. -/
def sampleState : AdminState where
  owner := ⟨"!abcd", "Base Station", "BS", false⟩
  radioConfig := ⟨⟨0, 0, "home", "hunter2", [1, 2, 3]⟩⟩
  moduleConfig := ⟨.telemetry_config, [60, 1], []⟩
  channels := sampleChannels
  rebootAtMsec := 0
  shutdownAtMsec := 0
  myReply := none
  calls := []

/-- The sample state with an empty Wi-Fi password. -/
def sampleStateNoPassword : AdminState :=
  { sampleState with radioConfig := ⟨⟨0, 0, "home", "", [1, 2, 3]⟩⟩ }

/-- A request packet that asks for a response. -/
def samplePacket : MeshPacket := ⟨77, ⟨true⟩⟩

/-- A request packet that does not ask for a response. -/
def samplePacketQuiet : MeshPacket := ⟨78, ⟨false⟩⟩

/-- The sample node with a plugin that handles every administration message without a
response. -/
def sampleCollaboratorsHandled : Collaborators :=
  { sampleCollaborators with
      handleAdminMessageForAllPlugins := fun _ _ response => (.HANDLED, response) }

/-- The sample node with a plugin that answers every administration message with an owner
response. -/
def sampleCollaboratorsResponding : Collaborators :=
  { sampleCollaborators with
      handleAdminMessageForAllPlugins := fun _ _ _ =>
        (.HANDLED_WITH_RESPONSE, .get_owner_response ⟨"!plug", "Plugin", "PL", false⟩) }

/-- The sample node one second before the 32-bit clock wraps. -/
def sampleCollaboratorsNearWrap : Collaborators :=
  { sampleCollaborators with millis := 4294966296 }

/-! ## Auxiliary facts about the primitives -/

theorem strcmpChars_eq_zero_iff (a b : List Char) : strcmpChars a b = 0 ↔ a = b := by
  induction a generalizing b with
  | nil => cases b <;> simp [strcmpChars]
  | cons c cs ih =>
    cases b with
    | nil => simp [strcmpChars]
    | cons d ds =>
      by_cases hcd : c = d
      · simp [strcmpChars, hcd, ih]
      · by_cases hlt : c.toNat < d.toNat <;> simp [strcmpChars, hcd, hlt]

theorem strcmp_eq_zero_iff (a b : String) : strcmp a b = 0 ↔ a = b := by
  unfold strcmp
  rw [strcmpChars_eq_zero_iff]
  constructor
  · intro h
    cases a; cases b; simp_all
  · rintro rfl; rfl

theorem nat_lor_eq_zero_iff (a b : Nat) : a ||| b = 0 ↔ a = 0 ∧ b = 0 := by
  constructor
  · intro h
    have key : ∀ i, a.testBit i = false ∧ b.testBit i = false := by
      intro i
      have hi := congrArg (fun n => Nat.testBit n i) h
      simpa [Nat.testBit_or] using hi
    exact ⟨Nat.eq_of_testBit_eq (by intro i; simp [(key i).1]),
      Nat.eq_of_testBit_eq (by intro i; simp [(key i).2])⟩
  · rintro ⟨rfl, rfl⟩; rfl

theorem int_lor_eq_zero_iff (a b : Int) : Int.lor a b = 0 ↔ a = 0 ∧ b = 0 := by
  cases a <;> cases b <;> simp [Int.lor, nat_lor_eq_zero_iff]

theorem writeSecret_eq (buf currentVal : String) :
    writeSecret buf currentVal = if buf = secretReserved then currentVal else buf := by
  unfold writeSecret
  simp [strcmp_eq_zero_iff]

theorem wrapI32_le (z : Int) (hz : 0 ≤ z) : wrapI32 z ≤ z := by
  unfold wrapI32
  split_ifs <;> omega

theorem wrapU32_add_wrapI32 (a z : Int) :
    wrapU32 (a + wrapI32 z) = wrapU32 (a + z) := by
  unfold wrapU32 wrapI32
  congr 1
  split_ifs <;> omega

theorem wrapU32_of_lt (z : Int) (h0 : 0 ≤ z) (h1 : z < 4294967296) : (wrapU32 z : Int) = z := by
  unfold wrapU32
  omega

/-! ## Bounds validation of channel requests -/

/-- C1: a set-channel request whose channel index is negative or at least
`MAX_NUM_CHANNELS` makes `handleReceivedProtobuf` store a BAD_REQUEST error reply, whatever
the prior state and whatever `want_response` is; `handleSetChannel` and the collaborators
are not invoked (the call log is unchanged), and the channel table, owner, radio
configuration, module configuration and both deadlines keep their values. -/
theorem set_channel_out_of_range_bad_request (E : Collaborators) (mp : MeshPacket)
    (cc : Channel) (s : AdminState)
    (h : cc.index < 0 ∨ cc.index ≥ (E.MAX_NUM_CHANNELS : Int)) :
    ∃ s1, handleReceivedProtobuf E mp (.set_channel cc) s = some (false, s1) ∧
      s1.myReply = some (.allocErrorResponse .BAD_REQUEST mp) ∧
      s1.calls = s.calls ∧
      s1.channels = s.channels ∧ s1.owner = s.owner ∧ s1.radioConfig = s.radioConfig ∧
      s1.moduleConfig = s.moduleConfig ∧
      s1.rebootAtMsec = s.rebootAtMsec ∧ s1.shutdownAtMsec = s.shutdownAtMsec := by
  have hcheck : cc.index < 0 ∨ cc.index ≥ wrapI32 (E.MAX_NUM_CHANNELS : Int) := by
    rcases h with h | h
    · exact Or.inl h
    · exact Or.inr (le_trans (wrapI32_le _ (Int.ofNat_nonneg _)) h)
  refine ⟨{ s with myReply := some (.allocErrorResponse .BAD_REQUEST mp) }, ?_, rfl, rfl, rfl,
    rfl, rfl, rfl, rfl, rfl⟩
  simp only [handleReceivedProtobuf]
  rw [if_pos hcheck]

/-- Witness for C1: index 8 on a node with eight channels, and index -1. -/
theorem set_channel_out_of_range_bad_request_witness :
    ((8 : Int) < 0 ∨ (8 : Int) ≥ (sampleCollaborators.MAX_NUM_CHANNELS : Int)) ∧
    ∃ s1, handleReceivedProtobuf sampleCollaborators samplePacketQuiet
        (.set_channel ⟨8, [1]⟩) sampleState = some (false, s1) ∧
      s1.myReply = some (.allocErrorResponse .BAD_REQUEST samplePacketQuiet) ∧
      s1.calls = sampleState.calls ∧
      s1.channels = sampleState.channels ∧ s1.owner = sampleState.owner ∧
      s1.radioConfig = sampleState.radioConfig ∧
      s1.moduleConfig = sampleState.moduleConfig ∧
      s1.rebootAtMsec = sampleState.rebootAtMsec ∧
      s1.shutdownAtMsec = sampleState.shutdownAtMsec :=
  ⟨Or.inr (by decide),
    set_channel_out_of_range_bad_request sampleCollaborators samplePacketQuiet ⟨8, [1]⟩
      sampleState (Or.inr (by decide))⟩

/-- C2, as stated, fails: on a node with `MAX_NUM_CHANNELS = 8` a get-channel request whose
field value is 8 (so `8 ≥ MAX_NUM_CHANNELS`) is not rejected. The dispatcher subtracts one,
calls `handleGetChannel` with index 7, and the reply is the channel at index 7. -/
theorem get_channel_field_eq_max_is_served :
    sampleCollaborators.MAX_NUM_CHANNELS ≤ 8 ∧
    handleReceivedProtobuf sampleCollaborators samplePacket (.get_channel_request 8)
        sampleState =
      some (false,
        { sampleState with
            myReply := some (.allocDataProtobuf (.get_channel_response ⟨7, [17]⟩))
            calls := [.handleGetChannel 7] }) ∧
    some (Reply.allocDataProtobuf (.get_channel_response ⟨7, [17]⟩)) ≠
      some (Reply.allocErrorResponse .BAD_REQUEST samplePacket) := by
  refine ⟨by decide, ?_, by simp⟩
  decide

/-- C2, amended: a get-channel request whose 32-bit field value is strictly greater than
`MAX_NUM_CHANNELS` makes `handleReceivedProtobuf` store a BAD_REQUEST error reply;
`handleGetChannel` is not invoked (the call log is unchanged) and the channel table is
unmodified. -/
theorem get_channel_above_max_bad_request (E : Collaborators) (mp : MeshPacket) (n : Nat)
    (s : AdminState) (hn : n < 4294967296) (h : E.MAX_NUM_CHANNELS < n) :
    ∃ s1, handleReceivedProtobuf E mp (.get_channel_request n) s = some (false, s1) ∧
      s1.myReply = some (.allocErrorResponse .BAD_REQUEST mp) ∧
      s1.calls = s.calls ∧ s1.channels = s.channels := by
  have hi : wrapU32 ((n : Int) - 1) ≥ E.MAX_NUM_CHANNELS := by
    unfold wrapU32
    omega
  refine ⟨{ s with myReply := some (.allocErrorResponse .BAD_REQUEST mp) }, ?_, rfl, rfl, rfl⟩
  simp only [handleReceivedProtobuf]
  rw [if_pos hi]

/-- Witness for the amended C2: field value 9 on a node with eight channels. -/
theorem get_channel_above_max_bad_request_witness :
    ((9 : Nat) < 4294967296 ∧ sampleCollaborators.MAX_NUM_CHANNELS < 9) ∧
    ∃ s1, handleReceivedProtobuf sampleCollaborators samplePacket (.get_channel_request 9)
        sampleState = some (false, s1) ∧
      s1.myReply = some (.allocErrorResponse .BAD_REQUEST samplePacket) ∧
      s1.calls = sampleState.calls ∧ s1.channels = sampleState.channels :=
  ⟨⟨by decide, by decide⟩,
    get_channel_above_max_bad_request sampleCollaborators samplePacket 9 sampleState
      (by decide) (by decide)⟩

/-! ## The reserved word for the Wi-Fi password -/

/-- C3, as stated, fails: when the stored `wifi_password` is empty, the get-radio response
carries the empty string, which is the stored value and not the reserved word. -/
theorem get_radio_empty_password_not_masked :
    sampleStateNoPassword.radioConfig.preferences.wifi_password = "" ∧
    handleReceivedProtobuf sampleCollaborators samplePacket .get_radio_request
        sampleStateNoPassword =
      some (false,
        { sampleStateNoPassword with
            myReply :=
              some (.allocDataProtobuf (.get_radio_response ⟨⟨300, 900, "home", "", [1, 2, 3]⟩⟩))
            calls := [.handleGetRadio] }) ∧
    ("" : String) ≠ secretReserved := by
  refine ⟨rfl, ?_, by decide⟩
  decide

/-- C3, amended: a get-radio request with `want_response` set produces a get-radio response
whose `wifi_password` is the reserved word when the stored password is not empty, and is
empty when the stored password is empty; so the response shows the stored password only
when that is empty or is the reserved word itself. -/
theorem get_radio_masks_nonempty_password (E : Collaborators) (mp : MeshPacket)
    (s : AdminState) (hw : mp.decoded.want_response = true) :
    ∃ s1 resp, handleReceivedProtobuf E mp .get_radio_request s = some (false, s1) ∧
      s1.myReply = some (.allocDataProtobuf (.get_radio_response resp)) ∧
      resp.preferences.wifi_password =
        (if s.radioConfig.preferences.wifi_password = "" then "" else secretReserved) ∧
      (resp.preferences.wifi_password = s.radioConfig.preferences.wifi_password ↔
        s.radioConfig.preferences.wifi_password = "" ∨
          s.radioConfig.preferences.wifi_password = secretReserved) := by
  refine ⟨handleGetRadio E mp s,
    { s.radioConfig with preferences :=
        { s.radioConfig.preferences with
            ls_secs := E.getPref_ls_secs s.radioConfig
            phone_timeout_secs := E.getPref_phone_timeout_secs s.radioConfig
            wifi_password := hideSecret s.radioConfig.preferences.wifi_password } },
    rfl, ?_, ?_, ?_⟩
  · simp [handleGetRadio, hw, AdminState.log]
  · by_cases hp : s.radioConfig.preferences.wifi_password = "" <;>
      simp [hideSecret, AdminState.log, hp]
  · by_cases hp : s.radioConfig.preferences.wifi_password = ""
    · simp [hideSecret, AdminState.log, hp]
    · simp only [hideSecret, AdminState.log, ne_eq, hp, not_false_eq_true, if_true, false_or]
      exact eq_comm

/-- Witness for the amended C3: the stored password "hunter2" is answered as "sekrit". -/
theorem get_radio_masks_nonempty_password_witness :
    samplePacket.decoded.want_response = true ∧
    ∃ s1 resp, handleReceivedProtobuf sampleCollaborators samplePacket .get_radio_request
        sampleState = some (false, s1) ∧
      s1.myReply = some (.allocDataProtobuf (.get_radio_response resp)) ∧
      resp.preferences.wifi_password =
        (if sampleState.radioConfig.preferences.wifi_password = "" then ""
          else secretReserved) ∧
      (resp.preferences.wifi_password = sampleState.radioConfig.preferences.wifi_password ↔
        sampleState.radioConfig.preferences.wifi_password = "" ∨
          sampleState.radioConfig.preferences.wifi_password = secretReserved) :=
  ⟨rfl, get_radio_masks_nonempty_password sampleCollaborators samplePacket sampleState rfl⟩

/-- C4: after a set-radio request carrying `r`, the stored radio configuration is `r` in
every field, except that the stored `wifi_password` keeps its previous value when the one
in `r` is the reserved word and becomes the one in `r` otherwise. The other parts of the
node state are not written, no reply is stored, and `service.reloadConfig` is called. -/
theorem set_radio_overwrites_except_reserved_password (E : Collaborators) (mp : MeshPacket)
    (r : RadioConfig) (s : AdminState) :
    ∃ s1, handleReceivedProtobuf E mp (.set_radio r) s = some (false, s1) ∧
      s1.radioConfig =
        { r with preferences :=
            { r.preferences with
                wifi_password :=
                  if r.preferences.wifi_password = secretReserved then
                    s.radioConfig.preferences.wifi_password
                  else r.preferences.wifi_password } } ∧
      s1.radioConfig.preferences.ls_secs = r.preferences.ls_secs ∧
      s1.radioConfig.preferences.phone_timeout_secs = r.preferences.phone_timeout_secs ∧
      s1.radioConfig.preferences.wifi_ssid = r.preferences.wifi_ssid ∧
      s1.radioConfig.preferences.other = r.preferences.other ∧
      s1.calls = s.calls ++ [.handleSetRadio r, .service_reloadConfig] ∧
      s1.myReply = s.myReply ∧ s1.owner = s.owner ∧ s1.channels = s.channels := by
  refine ⟨handleSetRadio r s, rfl, ?_, rfl, rfl, rfl, rfl, ?_, rfl, rfl, rfl⟩
  · simp [handleSetRadio, AdminState.log, writeSecret_eq]
  · simp [handleSetRadio, AdminState.log]

/-- C5: for every stored radio configuration, sending the response of a get-radio request
(with `want_response` set) back unmodified as a set-radio request leaves the stored
`wifi_password` as it was before the two requests. -/
theorem get_radio_then_set_radio_keeps_password (E1 E2 : Collaborators) (mp1 mp2 : MeshPacket)
    (s : AdminState) (hw : mp1.decoded.want_response = true) :
    ∃ s1 resp s2, handleReceivedProtobuf E1 mp1 .get_radio_request s = some (false, s1) ∧
      s1.myReply = some (.allocDataProtobuf (.get_radio_response resp)) ∧
      handleReceivedProtobuf E2 mp2 (.set_radio resp) s1 = some (false, s2) ∧
      s2.radioConfig.preferences.wifi_password = s.radioConfig.preferences.wifi_password := by
  refine ⟨handleGetRadio E1 mp1 s,
    { s.radioConfig with preferences :=
        { s.radioConfig.preferences with
            ls_secs := E1.getPref_ls_secs s.radioConfig
            phone_timeout_secs := E1.getPref_phone_timeout_secs s.radioConfig
            wifi_password := hideSecret s.radioConfig.preferences.wifi_password } },
    _, rfl, ?_, rfl, ?_⟩
  · simp [handleGetRadio, hw, AdminState.log]
  · have hget : (handleGetRadio E1 mp1 s).radioConfig = s.radioConfig := by
      simp [handleGetRadio, hw, AdminState.log]
    simp only [handleSetRadio, AdminState.log, writeSecret_eq, hideSecret, hget]
    by_cases hp : s.radioConfig.preferences.wifi_password = ""
    · have hne : ("" : String) ≠ secretReserved := by decide
      simp [hp, hne]
    · simp [hp]

/-- Witness for C5 on the sample node, whose stored password is "hunter2". -/
theorem get_radio_then_set_radio_keeps_password_witness :
    samplePacket.decoded.want_response = true ∧
    ∃ s1 resp s2, handleReceivedProtobuf sampleCollaborators samplePacket .get_radio_request
        sampleState = some (false, s1) ∧
      s1.myReply = some (.allocDataProtobuf (.get_radio_response resp)) ∧
      handleReceivedProtobuf sampleCollaboratorsLate samplePacketQuiet (.set_radio resp) s1 =
        some (false, s2) ∧
      s2.radioConfig.preferences.wifi_password =
        sampleState.radioConfig.preferences.wifi_password :=
  ⟨rfl, get_radio_then_set_radio_keeps_password sampleCollaborators sampleCollaboratorsLate
    samplePacket samplePacketQuiet sampleState rfl⟩

/-! ## The owner record -/

/-- Closed form of `handleSetOwner`: the owner becomes the merge, and `service.reloadOwner`
is called exactly when the trigger condition holds. -/
theorem handleSetOwner_eq (o : User) (s : AdminState) :
    handleSetOwner o s =
      { s with
          owner := mergeOwner s.owner o
          calls :=
            s.calls ++ [.handleSetOwner o] ++
              (if ownerFieldsDiffer s.owner o then [.service_reloadOwner] else []) } := by
  obtain ⟨⟨sid, slong, sshort, slic⟩, rc, mc, ch, rb, sd, rep, calls⟩ := s
  obtain ⟨oid, olong, oshort, olic⟩ := o
  by_cases h1 : olong = "" <;> by_cases h2 : oshort = "" <;> by_cases h3 : oid = "" <;>
    by_cases h4 : slic = olic <;> by_cases e1 : slong = olong <;>
    by_cases e2 : sshort = oshort <;> by_cases e3 : sid = oid <;>
    simp [handleSetOwner, AdminState.log, mergeOwner, ownerFieldsDiffer, int_lor_eq_zero_iff,
      strcmp_eq_zero_iff, h1, h2, h3, h4, e1, e2, e3]

theorem ownerFieldsDiffer_iff_merge_ne (stored o : User) :
    ownerFieldsDiffer stored o ↔ mergeOwner stored o ≠ stored := by
  obtain ⟨sid, slong, sshort, slic⟩ := stored
  obtain ⟨oid, olong, oshort, olic⟩ := o
  by_cases h1 : olong = "" <;> by_cases h2 : oshort = "" <;> by_cases h3 : oid = "" <;>
    by_cases h4 : slic = olic <;> by_cases e1 : slong = olong <;>
    by_cases e2 : sshort = oshort <;> by_cases e3 : sid = oid <;>
    simp [mergeOwner, ownerFieldsDiffer, h1, h2, h3, h4, e1, e2, e3] <;>
    simp_all [eq_comm]

/-- C6: `handleSetOwner` calls `service.reloadOwner` exactly once when some non-empty
incoming string field differs from the stored one or the licence flag differs, and not at
all otherwise; that condition holds exactly when the stored owner after the call differs
from the stored owner before it; and a request with three empty strings and the stored
licence flag never triggers the call. -/
theorem handleSetOwner_reloadOwner_iff_differs (o : User) (s : AdminState) :
    (handleSetOwner o s).calls =
        s.calls ++ [.handleSetOwner o] ++
          (if ownerFieldsDiffer s.owner o then [.service_reloadOwner] else []) ∧
      (handleSetOwner o s).calls.count .service_reloadOwner =
        s.calls.count .service_reloadOwner + (if ownerFieldsDiffer s.owner o then 1 else 0) ∧
      (ownerFieldsDiffer s.owner o ↔ (handleSetOwner o s).owner ≠ s.owner) ∧
      (o.long_name = "" ∧ o.short_name = "" ∧ o.id = "" ∧ o.is_licensed = s.owner.is_licensed →
        (handleSetOwner o s).calls.count .service_reloadOwner =
          s.calls.count .service_reloadOwner) := by
  have hcount :
      (handleSetOwner o s).calls.count .service_reloadOwner =
        s.calls.count .service_reloadOwner +
          (if ownerFieldsDiffer s.owner o then 1 else 0) := by
    rw [handleSetOwner_eq]
    by_cases hd : ownerFieldsDiffer s.owner o <;> simp [hd, List.count_append, List.count_cons]
  refine ⟨by rw [handleSetOwner_eq], hcount, ?_, ?_⟩
  · rw [handleSetOwner_eq]
    exact ownerFieldsDiffer_iff_merge_ne s.owner o
  · rintro ⟨h1, h2, h3, h4⟩
    have hnd : ¬ ownerFieldsDiffer s.owner o := by
      simp [ownerFieldsDiffer, h1, h2, h3, h4]
    rw [hcount, if_neg hnd, Nat.add_zero]

/-- Witness for C6: a request with empty strings and the stored licence flag calls
`service.reloadOwner` zero times on the sample node. -/
theorem handleSetOwner_reloadOwner_iff_differs_witness :
    (("" : String) = "" ∧ ("" : String) = "" ∧ ("" : String) = "" ∧
        false = sampleState.owner.is_licensed) ∧
      (handleSetOwner ⟨"", "", "", false⟩ sampleState).calls.count .service_reloadOwner =
        sampleState.calls.count .service_reloadOwner :=
  ⟨⟨rfl, rfl, rfl, rfl⟩,
    (handleSetOwner_reloadOwner_iff_differs ⟨"", "", "", false⟩ sampleState).2.2.2
      ⟨rfl, rfl, rfl, rfl⟩⟩

/-- C7: after a set-owner request carrying `o`, each of the stored `long_name`,
`short_name` and `id` is the incoming field when that is non-empty and the previously
stored field when it is empty, and the stored `is_licensed` is the incoming flag. -/
theorem set_owner_merges_fields (E : Collaborators) (mp : MeshPacket) (o : User)
    (s : AdminState) :
    ∃ s1, handleReceivedProtobuf E mp (.set_owner o) s = some (false, s1) ∧
      s1.owner.long_name = (if o.long_name = "" then s.owner.long_name else o.long_name) ∧
      s1.owner.short_name = (if o.short_name = "" then s.owner.short_name else o.short_name) ∧
      s1.owner.id = (if o.id = "" then s.owner.id else o.id) ∧
      s1.owner.is_licensed = o.is_licensed := by
  refine ⟨handleSetOwner o s, rfl, ?_, ?_, ?_, ?_⟩ <;> rw [handleSetOwner_eq] <;> rfl

/-! ## Getters without a wanted response -/

/-- C8: when `want_response` is false, a get-owner, get-radio, get-config or
get-module-config request, or a get-channel request that passes the range check (field
value `n` with `1 ≤ n ≤ MAX_NUM_CHANNELS`, that is, channel index `n - 1` in range), leaves
the reply slot as it was and changes no node state (owner, radio configuration, module
configuration, channel table, deadlines); the handler is entered and nothing else is
called. -/
theorem getters_without_want_response_are_silent (E : Collaborators) (mp : MeshPacket)
    (r : AdminMessage) (s : AdminState) (hw : mp.decoded.want_response = false)
    (hr : r = .get_owner_request ∨ r = .get_radio_request ∨
      (∃ t, r = .get_config_request t) ∨ (∃ t, r = .get_module_config_request t) ∨
      (∃ n, r = .get_channel_request n ∧ 1 ≤ n ∧ n ≤ E.MAX_NUM_CHANNELS ∧ n < 4294967296)) :
    ∃ s1 c, handleReceivedProtobuf E mp r s = some (false, s1) ∧
      s1.myReply = s.myReply ∧ s1.calls = s.calls ++ [c] ∧
      s1.owner = s.owner ∧ s1.radioConfig = s.radioConfig ∧
      s1.moduleConfig = s.moduleConfig ∧ s1.channels = s.channels ∧
      s1.rebootAtMsec = s.rebootAtMsec ∧ s1.shutdownAtMsec = s.shutdownAtMsec := by
  rcases hr with rfl | rfl | ⟨t, rfl⟩ | ⟨t, rfl⟩ | ⟨n, rfl, h1, h2, h3⟩
  · exact ⟨handleGetOwner mp s, .handleGetOwner, rfl,
      by simp [handleGetOwner, hw, AdminState.log], by simp [handleGetOwner, hw, AdminState.log],
      by simp [handleGetOwner, hw, AdminState.log], by simp [handleGetOwner, hw, AdminState.log],
      by simp [handleGetOwner, hw, AdminState.log], by simp [handleGetOwner, hw, AdminState.log],
      by simp [handleGetOwner, hw, AdminState.log], by simp [handleGetOwner, hw, AdminState.log]⟩
  · exact ⟨handleGetRadio E mp s, .handleGetRadio, rfl,
      by simp [handleGetRadio, hw, AdminState.log], by simp [handleGetRadio, hw, AdminState.log],
      by simp [handleGetRadio, hw, AdminState.log], by simp [handleGetRadio, hw, AdminState.log],
      by simp [handleGetRadio, hw, AdminState.log], by simp [handleGetRadio, hw, AdminState.log],
      by simp [handleGetRadio, hw, AdminState.log], by simp [handleGetRadio, hw, AdminState.log]⟩
  · exact ⟨handleGetConfig mp s, .handleGetConfig, rfl,
      by simp [handleGetConfig, hw, AdminState.log], by simp [handleGetConfig, hw, AdminState.log],
      by simp [handleGetConfig, hw, AdminState.log], by simp [handleGetConfig, hw, AdminState.log],
      by simp [handleGetConfig, hw, AdminState.log], by simp [handleGetConfig, hw, AdminState.log],
      by simp [handleGetConfig, hw, AdminState.log], by simp [handleGetConfig, hw, AdminState.log]⟩
  · exact ⟨handleGetModuleConfig mp s, .handleGetModuleConfig, rfl,
      by simp [handleGetModuleConfig, hw, AdminState.log],
      by simp [handleGetModuleConfig, hw, AdminState.log],
      by simp [handleGetModuleConfig, hw, AdminState.log],
      by simp [handleGetModuleConfig, hw, AdminState.log],
      by simp [handleGetModuleConfig, hw, AdminState.log],
      by simp [handleGetModuleConfig, hw, AdminState.log],
      by simp [handleGetModuleConfig, hw, AdminState.log],
      by simp [handleGetModuleConfig, hw, AdminState.log]⟩
  · have hi : ¬ wrapU32 ((n : Int) - 1) ≥ E.MAX_NUM_CHANNELS := by
      unfold wrapU32
      omega
    refine ⟨handleGetChannel E mp (wrapU32 ((n : Int) - 1)) s,
      .handleGetChannel (wrapU32 ((n : Int) - 1)), ?_, ?_, ?_, ?_, ?_, ?_, ?_, ?_, ?_⟩
    · simp only [handleReceivedProtobuf]
      rw [if_neg hi]
    all_goals simp [handleGetChannel, hw, AdminState.log]

/-- Witness for C8: a get-channel request for field value 3 without `want_response` on the
sample node. -/
theorem getters_without_want_response_are_silent_witness :
    samplePacketQuiet.decoded.want_response = false ∧
    ∃ s1 c, handleReceivedProtobuf sampleCollaborators samplePacketQuiet
        (.get_channel_request 3) sampleState = some (false, s1) ∧
      s1.myReply = sampleState.myReply ∧ s1.calls = sampleState.calls ++ [c] ∧
      s1.owner = sampleState.owner ∧ s1.radioConfig = sampleState.radioConfig ∧
      s1.moduleConfig = sampleState.moduleConfig ∧ s1.channels = sampleState.channels ∧
      s1.rebootAtMsec = sampleState.rebootAtMsec ∧
      s1.shutdownAtMsec = sampleState.shutdownAtMsec :=
  ⟨rfl,
    getters_without_want_response_are_silent sampleCollaborators samplePacketQuiet
      (.get_channel_request 3) sampleState rfl
      (Or.inr (Or.inr (Or.inr (Or.inr
        ⟨3, rfl, by decide, by decide, by decide⟩))))⟩

/-! ## Reboot and shutdown deadlines -/

/-- C9, as stated, fails: with the clock at `4294967295`, reboot-after(10) stores the
deadline `9999`, not `now + 10000`; shutdown-after(10) does the same. -/
theorem reboot_after_wraps_at_clock_end :
    sampleCollaboratorsLate.millis = 4294967295 ∧
    handleReceivedProtobuf sampleCollaboratorsLate samplePacketQuiet (.reboot_seconds 10)
        sampleState = some (false, { sampleState with rebootAtMsec := 9999 }) ∧
    handleReceivedProtobuf sampleCollaboratorsLate samplePacketQuiet (.shutdown_seconds 10)
        sampleState = some (false, { sampleState with shutdownAtMsec := 9999 }) ∧
    (9999 : Nat) ≠ sampleCollaboratorsLate.millis + 1000 * 10 := by
  refine ⟨rfl, ?_, ?_, by decide⟩ <;> decide

/-- C9, amended: reboot-after(s) with `s < 0` sets the reboot deadline to 0 (unset), and
with `s ≥ 0` sets it to `(now + 1000 * s) mod 2^32`, which is `now + 1000 * s` whenever that
sum is below `2^32`; shutdown-after(s) does the same to the shutdown deadline. -/
theorem lifecycle_deadline_value (E : Collaborators) (mp : MeshPacket) (sec : Int)
    (s : AdminState) :
    ∃ s1 s2,
      handleReceivedProtobuf E mp (.reboot_seconds sec) s = some (false, s1) ∧
      handleReceivedProtobuf E mp (.shutdown_seconds sec) s = some (false, s2) ∧
      (s1.rebootAtMsec : Int) =
        (if sec < 0 then 0 else ((E.millis : Int) + 1000 * sec) % 4294967296) ∧
      (s2.shutdownAtMsec : Int) =
        (if sec < 0 then 0 else ((E.millis : Int) + 1000 * sec) % 4294967296) ∧
      (0 ≤ sec → (E.millis : Int) + 1000 * sec < 4294967296 →
        (s1.rebootAtMsec : Int) = (E.millis : Int) + 1000 * sec ∧
          (s2.shutdownAtMsec : Int) = (E.millis : Int) + 1000 * sec) := by
  have key : ((if sec < 0 then 0 else wrapU32 ((E.millis : Int) + wrapI32 (sec * 1000)) : Nat)
      : Int) = (if sec < 0 then 0 else ((E.millis : Int) + 1000 * sec) % 4294967296) := by
    by_cases hs : sec < 0
    · simp [hs]
    · rw [if_neg hs, if_neg hs, wrapU32_add_wrapI32]
      unfold wrapU32
      omega
  refine ⟨_, _, rfl, rfl, key, key, ?_⟩
  intro h0 hlt
  have hs : ¬ sec < 0 := by omega
  have hmod : ((E.millis : Int) + 1000 * sec) % 4294967296 = (E.millis : Int) + 1000 * sec := by
    omega
  refine ⟨?_, ?_⟩
  · show ((if sec < 0 then 0 else wrapU32 ((E.millis : Int) + wrapI32 (sec * 1000)) : Nat)
      : Int) = _
    rw [key, if_neg hs, hmod]
  · show ((if sec < 0 then 0 else wrapU32 ((E.millis : Int) + wrapI32 (sec * 1000)) : Nat)
      : Int) = _
    rw [key, if_neg hs, hmod]

/-- Witness for the amended C9: at clock 5000, reboot-after(10) stores 15000 and so does
shutdown-after(10). -/
theorem lifecycle_deadline_value_witness :
    ((0 : Int) ≤ 10 ∧ (sampleCollaborators.millis : Int) + 1000 * 10 < 4294967296) ∧
    ∃ s1 s2,
      handleReceivedProtobuf sampleCollaborators samplePacket (.reboot_seconds 10)
        sampleState = some (false, s1) ∧
      handleReceivedProtobuf sampleCollaborators samplePacket (.shutdown_seconds 10)
        sampleState = some (false, s2) ∧
      (s1.rebootAtMsec : Int) = (sampleCollaborators.millis : Int) + 1000 * 10 ∧
      (s2.shutdownAtMsec : Int) = (sampleCollaborators.millis : Int) + 1000 * 10 := by
  refine ⟨⟨by decide, by decide⟩, ?_⟩
  obtain ⟨s1, s2, h1, h2, _, _, h5⟩ :=
    lifecycle_deadline_value sampleCollaborators samplePacket 10 sampleState
  exact ⟨s1, s2, h1, h2, (h5 (by decide) (by decide)).1, (h5 (by decide) (by decide)).2⟩

/-- C10: reboot-after(s) leaves the shutdown deadline, the reply slot, the owner, the radio
configuration, the channel table and the call log as they were, and the new reboot deadline
is the same from every prior state; shutdown-after(s) does the same with the roles of the
two deadlines exchanged. -/
theorem lifecycle_deadlines_independent (E : Collaborators) (mp : MeshPacket) (sec : Int)
    (s : AdminState) :
    (∃ s1, handleReceivedProtobuf E mp (.reboot_seconds sec) s = some (false, s1) ∧
      s1.shutdownAtMsec = s.shutdownAtMsec ∧ s1.myReply = s.myReply ∧ s1.owner = s.owner ∧
      s1.radioConfig = s.radioConfig ∧ s1.channels = s.channels ∧ s1.calls = s.calls ∧
      ∀ t : AdminState, ∃ t1,
        handleReceivedProtobuf E mp (.reboot_seconds sec) t = some (false, t1) ∧
          t1.rebootAtMsec = s1.rebootAtMsec) ∧
    (∃ s2, handleReceivedProtobuf E mp (.shutdown_seconds sec) s = some (false, s2) ∧
      s2.rebootAtMsec = s.rebootAtMsec ∧ s2.myReply = s.myReply ∧ s2.owner = s.owner ∧
      s2.radioConfig = s.radioConfig ∧ s2.channels = s.channels ∧ s2.calls = s.calls ∧
      ∀ t : AdminState, ∃ t2,
        handleReceivedProtobuf E mp (.shutdown_seconds sec) t = some (false, t2) ∧
          t2.shutdownAtMsec = s2.shutdownAtMsec) :=
  ⟨⟨_, rfl, rfl, rfl, rfl, rfl, rfl, rfl, fun _ => ⟨_, rfl, rfl⟩⟩,
    ⟨_, rfl, rfl, rfl, rfl, rfl, rfl, rfl, fun _ => ⟨_, rfl, rfl⟩⟩⟩

/-! ## Responses to get-config and get-module-config -/

/-- C11, evaluated on the code: a get-config request for the GPS family with `want_response`
set is answered with the device tag, because `handleGetConfig` switches on the field of
its own fresh message and never sees the request; the outcome is the same for every
requested family. -/
theorem get_config_ignores_requested_family :
    handleReceivedProtobuf sampleCollaborators samplePacket
        (.get_config_request .GPS_CONFIG) sampleState =
      some (false,
        { sampleState with
            myReply := some (.allocDataProtobuf (.get_config_response ⟨.device_config, []⟩))
            calls := [.handleGetConfig] }) ∧
    Config_tag.device_config ≠ configTagOf .GPS_CONFIG ∧
    ∀ (E : Collaborators) (mp : MeshPacket) (t1 t2 : AdminMessage_ConfigType) (s : AdminState),
      handleReceivedProtobuf E mp (.get_config_request t1) s =
        handleReceivedProtobuf E mp (.get_config_request t2) s := by
  refine ⟨by decide, by decide, ?_⟩
  intro E mp t1 t2 s
  rfl

/-- C12, evaluated on the code: a get-module-config request for the telemetry family with
`want_response` set is answered with the MQTT tag and an empty telemetry payload, although
the stored telemetry configuration is not empty, because `handleGetModuleConfig` switches
on the field of its own fresh message; the outcome is the same for every requested
family. -/
theorem get_module_config_ignores_requested_family :
    handleReceivedProtobuf sampleCollaborators samplePacket
        (.get_module_config_request .TELEMETRY_CONFIG) sampleState =
      some (false,
        { sampleState with
            myReply :=
              some (.allocDataProtobuf (.get_module_config_response ⟨.mqtt_config, [], []⟩))
            calls := [.handleGetModuleConfig] }) ∧
    ModuleConfig_tag.mqtt_config ≠ moduleConfigTagOf .TELEMETRY_CONFIG ∧
    sampleState.moduleConfig.telemetry_config = [60, 1] ∧
    ∀ (E : Collaborators) (mp : MeshPacket) (t1 t2 : AdminMessage_ModuleConfigType)
      (s : AdminState),
      handleReceivedProtobuf E mp (.get_module_config_request t1) s =
        handleReceivedProtobuf E mp (.get_module_config_request t2) s := by
  refine ⟨by decide, by decide, rfl, ?_⟩
  intro E mp t1 t2 s
  rfl

/-! ## Fallback delegation and the returned flag -/

/-- Requests without a `case` label are handed to the `default:` branch. -/
theorem handleReceivedProtobuf_of_no_explicit_case (E : Collaborators) (mp : MeshPacket)
    (r : AdminMessage) (s : AdminState) (h : hasExplicitCase E r = false) :
    handleReceivedProtobuf E mp r s = some (false, handleReceivedProtobuf_default E mp r s) := by
  cases r <;> simp_all [hasExplicitCase, handleReceivedProtobuf]

/-- C13: for a request whose tag has no explicit case, the reply slot is written exactly
when `handleAdminMessageForAllPlugins` returns HANDLED_WITH_RESPONSE, and then it holds the
response the plugins produced; for any other outcome the slot is left as it was (no reply,
no error reply). In every case the only call is the plugin fan-out, and owner, radio
configuration, module configuration, channel table and deadlines are unchanged. -/
theorem fallback_reply_iff_handled_with_response (E : Collaborators) (mp : MeshPacket)
    (r : AdminMessage) (s : AdminState) (h : hasExplicitCase E r = false) :
    ∃ s1, handleReceivedProtobuf E mp r s = some (false, s1) ∧
      ((E.handleAdminMessageForAllPlugins mp r AdminMessage_init_default).1 =
          .HANDLED_WITH_RESPONSE →
        s1.myReply =
          some (.allocDataProtobuf
            (E.handleAdminMessageForAllPlugins mp r AdminMessage_init_default).2)) ∧
      ((E.handleAdminMessageForAllPlugins mp r AdminMessage_init_default).1 ≠
          .HANDLED_WITH_RESPONSE →
        s1.myReply = s.myReply) ∧
      s1.calls = s.calls ++ [.handleAdminMessageForAllPlugins r] ∧
      s1.owner = s.owner ∧ s1.radioConfig = s.radioConfig ∧
      s1.moduleConfig = s.moduleConfig ∧ s1.channels = s.channels ∧
      s1.rebootAtMsec = s.rebootAtMsec ∧ s1.shutdownAtMsec = s.shutdownAtMsec := by
  refine ⟨handleReceivedProtobuf_default E mp r s,
    handleReceivedProtobuf_of_no_explicit_case E mp r s h, ?_, ?_, ?_, ?_, ?_, ?_, ?_, ?_, ?_⟩
  · intro hr
    simp [handleReceivedProtobuf_default, hr, AdminState.log]
  · intro hr
    simp [handleReceivedProtobuf_default, hr, AdminState.log]
  all_goals
    by_cases hr : (E.handleAdminMessageForAllPlugins mp r AdminMessage_init_default).1 =
      .HANDLED_WITH_RESPONSE <;>
    simp [handleReceivedProtobuf_default, hr, AdminState.log]

/-- Witness for C13: an unnamed tag on the node whose plugin answers with an owner
response. -/
theorem fallback_reply_iff_handled_with_response_witness :
    hasExplicitCase sampleCollaboratorsResponding (.other 40) = false ∧
    ∃ s1, handleReceivedProtobuf sampleCollaboratorsResponding samplePacketQuiet (.other 40)
        sampleState = some (false, s1) ∧
      s1.myReply =
        some (.allocDataProtobuf (.get_owner_response ⟨"!plug", "Plugin", "PL", false⟩)) ∧
      s1.calls = sampleState.calls ++ [.handleAdminMessageForAllPlugins (.other 40)] ∧
      s1.owner = sampleState.owner ∧ s1.channels = sampleState.channels := by
  refine ⟨rfl, ?_⟩
  obtain ⟨s1, h1, h2, _, h4, h5, _, _, h8, _, _⟩ :=
    fallback_reply_iff_handled_with_response sampleCollaboratorsResponding samplePacketQuiet
      (.other 40) sampleState rfl
  exact ⟨s1, h1, h2 rfl, h4, h5, h8⟩

/-- C14, as stated, fails: an unnamed tag goes to fallback delegation, the plugins report
HANDLED, and `handleReceivedProtobuf` still returns false. -/
theorem fallback_handled_returns_false :
    hasExplicitCase sampleCollaboratorsHandled (.other 40) = false ∧
    (sampleCollaboratorsHandled.handleAdminMessageForAllPlugins samplePacketQuiet (.other 40)
        AdminMessage_init_default).1 = .HANDLED ∧
    handleReceivedProtobuf sampleCollaboratorsHandled samplePacketQuiet (.other 40)
        sampleState =
      some (false,
        { sampleState with calls := [.handleAdminMessageForAllPlugins (.other 40)] }) := by
  refine ⟨rfl, rfl, ?_⟩
  decide

/-- C14, amended: whenever `handleReceivedProtobuf` returns (that is, except for
`exit_simulator` in a `PORTDUINO` build, which ends the process), the value it returns is
false, for every request, explicit or delegated, and every delegation outcome. -/
theorem handleReceivedProtobuf_returns_false (E : Collaborators) (mp : MeshPacket)
    (r : AdminMessage) (s : AdminState)
    (h : ¬ (r = .exit_simulator ∧ E.PORTDUINO = true)) :
    ∃ s1, handleReceivedProtobuf E mp r s = some (false, s1) := by
  cases r
  case exit_simulator =>
    have hp : E.PORTDUINO = false := by
      cases hP : E.PORTDUINO
      · rfl
      · exact absurd ⟨rfl, hP⟩ h
    exact ⟨handleReceivedProtobuf_default E mp .exit_simulator s,
      by simp [handleReceivedProtobuf, hp]⟩
  case get_channel_request n =>
    by_cases hi : wrapU32 ((n : Int) - 1) ≥ E.MAX_NUM_CHANNELS
    · exact ⟨_, by simp only [handleReceivedProtobuf]; rw [if_pos hi]⟩
    · exact ⟨_, by simp only [handleReceivedProtobuf]; rw [if_neg hi]⟩
  case set_channel cc =>
    by_cases hi : cc.index < 0 ∨ cc.index ≥ wrapI32 (E.MAX_NUM_CHANNELS : Int)
    · exact ⟨_, by simp only [handleReceivedProtobuf]; rw [if_pos hi]⟩
    · exact ⟨_, by simp only [handleReceivedProtobuf]; rw [if_neg hi]⟩
  all_goals exact ⟨_, rfl⟩

/-- Witness for the amended C14: the delegated request whose outcome is HANDLED. -/
theorem handleReceivedProtobuf_returns_false_witness :
    ¬ ((AdminMessage.other 40) = .exit_simulator ∧ sampleCollaboratorsHandled.PORTDUINO = true) ∧
    ∃ s1, handleReceivedProtobuf sampleCollaboratorsHandled samplePacketQuiet (.other 40)
        sampleState = some (false, s1) :=
  ⟨by decide,
    handleReceivedProtobuf_returns_false sampleCollaboratorsHandled samplePacketQuiet (.other 40)
      sampleState (by decide)⟩

/-! ## Side effects of set-channel -/

/-- C15: an in-range set-channel request reaches `handleSetChannel`, which first installs
`cc` through `channels.setChannel`; for index 0 it then calls `service.reloadConfig` once and
neither `channels.onConfigChanged` nor `nodeDB.saveChannelsToDisk`; for an index in
`[1, MAX_NUM_CHANNELS)` it calls `channels.onConfigChanged` and then
`nodeDB.saveChannelsToDisk`, once each, and not `service.reloadConfig`. -/
theorem set_channel_in_range_side_effects (E : Collaborators) (mp : MeshPacket) (cc : Channel)
    (s : AdminState) (h0 : 0 ≤ cc.index) (h1 : cc.index < (E.MAX_NUM_CHANNELS : Int))
    (hM : E.MAX_NUM_CHANNELS < 2147483648) :
    ∃ s1, handleReceivedProtobuf E mp (.set_channel cc) s = some (false, s1) ∧
      s1.channels = E.setChannel cc s.channels ∧
      (cc.index = 0 →
        s1.calls =
          s.calls ++ [.handleSetChannel cc, .channels_setChannel cc, .service_reloadConfig]) ∧
      (cc.index ≠ 0 →
        s1.calls =
          s.calls ++ [.handleSetChannel cc, .channels_setChannel cc, .channels_onConfigChanged,
            .nodeDB_saveChannelsToDisk]) ∧
      s1.myReply = s.myReply := by
  have hcast : wrapI32 (E.MAX_NUM_CHANNELS : Int) = (E.MAX_NUM_CHANNELS : Int) := by
    unfold wrapI32
    split_ifs <;> omega
  have hcheck : ¬ (cc.index < 0 ∨ cc.index ≥ wrapI32 (E.MAX_NUM_CHANNELS : Int)) := by
    rw [hcast]
    omega
  refine ⟨handleSetChannel E cc s, ?_, ?_, ?_, ?_, ?_⟩
  · simp only [handleReceivedProtobuf]
    rw [if_neg hcheck]
  · by_cases hz : cc.index = 0 <;> simp [handleSetChannel, AdminState.log, hz]
  · intro hz
    simp [handleSetChannel, AdminState.log, hz]
  · intro hz
    simp [handleSetChannel, AdminState.log, hz]
  · by_cases hz : cc.index = 0 <;> simp [handleSetChannel, AdminState.log, hz]

/-- Witness for C15: set-channel with index 3 on the sample node. -/
theorem set_channel_in_range_side_effects_witness :
    ((0 : Int) ≤ 3 ∧ (3 : Int) < (sampleCollaborators.MAX_NUM_CHANNELS : Int) ∧
      sampleCollaborators.MAX_NUM_CHANNELS < 2147483648 ∧ (3 : Int) ≠ 0) ∧
    ∃ s1, handleReceivedProtobuf sampleCollaborators samplePacketQuiet
        (.set_channel ⟨3, [99]⟩) sampleState = some (false, s1) ∧
      s1.channels = sampleCollaborators.setChannel ⟨3, [99]⟩ sampleState.channels ∧
      s1.calls =
        sampleState.calls ++
          [.handleSetChannel ⟨3, [99]⟩, .channels_setChannel ⟨3, [99]⟩,
            .channels_onConfigChanged, .nodeDB_saveChannelsToDisk] := by
  refine ⟨⟨by decide, by decide, by decide, by decide⟩, ?_⟩
  obtain ⟨s1, h1, h2, _, h4, _⟩ :=
    set_channel_in_range_side_effects sampleCollaborators samplePacketQuiet ⟨3, [99]⟩
      sampleState (by decide) (by decide) (by decide)
  exact ⟨s1, h1, h2, h4 (by decide)⟩

/-! ## When the reply slot is written -/

/-- C16, as stated, fails: with `want_response` false, a get-channel request with field
value 0 and a set-channel request with index 8 (both matching an explicit case, the second
not a getter) each store a BAD_REQUEST error reply in the empty reply slot. -/
theorem error_reply_written_without_want_response :
    samplePacketQuiet.decoded.want_response = false ∧ sampleState.myReply = none ∧
    hasExplicitCase sampleCollaborators (.get_channel_request 0) = true ∧
    handleReceivedProtobuf sampleCollaborators samplePacketQuiet (.get_channel_request 0)
        sampleState =
      some (false,
        { sampleState with
            myReply := some (.allocErrorResponse .BAD_REQUEST samplePacketQuiet) }) ∧
    hasExplicitCase sampleCollaborators (.set_channel ⟨8, [1]⟩) = true ∧
    isGetRequest (.set_channel ⟨8, [1]⟩) = false ∧
    handleReceivedProtobuf sampleCollaborators samplePacketQuiet (.set_channel ⟨8, [1]⟩)
        sampleState =
      some (false,
        { sampleState with
            myReply := some (.allocErrorResponse .BAD_REQUEST samplePacketQuiet) }) := by
  refine ⟨rfl, rfl, rfl, ?_, rfl, rfl, ?_⟩ <;> decide

/-- How the setters leave the reply slot. -/
theorem setters_keep_myReply (E : Collaborators) (s : AdminState) :
    (∀ o, (handleSetOwner o s).myReply = s.myReply) ∧
      (∀ r, (handleSetRadio r s).myReply = s.myReply) ∧
      (∀ c, (handleSetConfig c s).myReply = s.myReply) ∧
      (∀ c, (handleSetModuleConfig c s).myReply = s.myReply) ∧
      (∀ cc, (handleSetChannel E cc s).myReply = s.myReply) := by
  refine ⟨?_, ?_, ?_, ?_, ?_⟩
  · intro o
    rw [handleSetOwner_eq]
  · intro r
    rfl
  · intro c
    rfl
  · intro c
    rfl
  · intro cc
    by_cases hz : cc.index = 0 <;> simp [handleSetChannel, AdminState.log, hz]

/-- C16, amended: if a call of `handleReceivedProtobuf` changes the reply slot, then the
request is an explicit get-* case with `want_response` set, or a get-channel or set-channel
request that fails the range check (the BAD_REQUEST error reply, written whatever
`want_response` is), or a request without an explicit case for which the plugins returned
HANDLED_WITH_RESPONSE. -/
theorem reply_written_only_if (E : Collaborators) (mp : MeshPacket) (r : AdminMessage)
    (s s1 : AdminState) (b : Bool)
    (hrun : handleReceivedProtobuf E mp r s = some (b, s1))
    (hwritten : s1.myReply ≠ s.myReply) :
    (isGetRequest r = true ∧ mp.decoded.want_response = true) ∨
      (∃ n, r = .get_channel_request n ∧ E.MAX_NUM_CHANNELS ≤ wrapU32 ((n : Int) - 1) ∧
        s1.myReply = some (.allocErrorResponse .BAD_REQUEST mp)) ∨
      (∃ cc, r = .set_channel cc ∧
        (cc.index < 0 ∨ cc.index ≥ wrapI32 (E.MAX_NUM_CHANNELS : Int)) ∧
        s1.myReply = some (.allocErrorResponse .BAD_REQUEST mp)) ∨
      (hasExplicitCase E r = false ∧
        (E.handleAdminMessageForAllPlugins mp r AdminMessage_init_default).1 =
          .HANDLED_WITH_RESPONSE) := by
  by_cases hx : hasExplicitCase E r = false
  · right; right; right
    refine ⟨hx, ?_⟩
    by_contra hne
    rw [handleReceivedProtobuf_of_no_explicit_case E mp r s hx] at hrun
    simp only [Option.some.injEq, Prod.mk.injEq] at hrun
    apply hwritten
    rw [← hrun.2]
    simp [handleReceivedProtobuf_default, hne, AdminState.log]
  · have hx1 : hasExplicitCase E r = true := by simpa using hx
    obtain ⟨ho, hr, hc, hm, hch⟩ := setters_keep_myReply E s
    by_cases hw : mp.decoded.want_response = true
    · cases r with
      | get_owner_request => exact Or.inl ⟨rfl, hw⟩
      | get_radio_request => exact Or.inl ⟨rfl, hw⟩
      | get_config_request t => exact Or.inl ⟨rfl, hw⟩
      | get_module_config_request t => exact Or.inl ⟨rfl, hw⟩
      | get_channel_request n => exact Or.inl ⟨rfl, hw⟩
      | set_owner o =>
        simp only [handleReceivedProtobuf, Option.some.injEq, Prod.mk.injEq] at hrun
        exact absurd (by rw [← hrun.2]; exact ho o) hwritten
      | set_radio rc =>
        simp only [handleReceivedProtobuf, Option.some.injEq, Prod.mk.injEq] at hrun
        exact absurd (by rw [← hrun.2]; exact hr rc) hwritten
      | set_config c =>
        simp only [handleReceivedProtobuf, Option.some.injEq, Prod.mk.injEq] at hrun
        exact absurd (by rw [← hrun.2]; exact hc c) hwritten
      | set_module_config c =>
        simp only [handleReceivedProtobuf, Option.some.injEq, Prod.mk.injEq] at hrun
        exact absurd (by rw [← hrun.2]; exact hm c) hwritten
      | set_channel cc =>
        simp only [handleReceivedProtobuf] at hrun
        by_cases hi : cc.index < 0 ∨ cc.index ≥ wrapI32 (E.MAX_NUM_CHANNELS : Int)
        · rw [if_pos hi] at hrun
          simp only [Option.some.injEq, Prod.mk.injEq] at hrun
          exact Or.inr (Or.inr (Or.inl ⟨cc, rfl, hi, by rw [← hrun.2]⟩))
        · rw [if_neg hi] at hrun
          simp only [Option.some.injEq, Prod.mk.injEq] at hrun
          exact absurd (by rw [← hrun.2]; exact hch cc) hwritten
      | reboot_seconds sec =>
        simp only [handleReceivedProtobuf, Option.some.injEq, Prod.mk.injEq] at hrun
        exact absurd (by rw [← hrun.2]) hwritten
      | shutdown_seconds sec =>
        simp only [handleReceivedProtobuf, Option.some.injEq, Prod.mk.injEq] at hrun
        exact absurd (by rw [← hrun.2]) hwritten
      | exit_simulator =>
        have hP : E.PORTDUINO = true := by simpa [hasExplicitCase] using hx1
        simp [handleReceivedProtobuf, hP] at hrun
      | unset => simp [hasExplicitCase] at hx1
      | get_owner_response o => simp [hasExplicitCase] at hx1
      | get_radio_response rc => simp [hasExplicitCase] at hx1
      | get_config_response c => simp [hasExplicitCase] at hx1
      | get_module_config_response c => simp [hasExplicitCase] at hx1
      | get_channel_response c => simp [hasExplicitCase] at hx1
      | other tag => simp [hasExplicitCase] at hx1
    · have hq : mp.decoded.want_response = false := by simpa using hw
      cases r with
      | get_owner_request =>
        simp only [handleReceivedProtobuf, Option.some.injEq, Prod.mk.injEq] at hrun
        exact absurd (by rw [← hrun.2]; simp [handleGetOwner, hq, AdminState.log]) hwritten
      | get_radio_request =>
        simp only [handleReceivedProtobuf, Option.some.injEq, Prod.mk.injEq] at hrun
        exact absurd (by rw [← hrun.2]; simp [handleGetRadio, hq, AdminState.log]) hwritten
      | get_config_request t =>
        simp only [handleReceivedProtobuf, Option.some.injEq, Prod.mk.injEq] at hrun
        exact absurd (by rw [← hrun.2]; simp [handleGetConfig, hq, AdminState.log]) hwritten
      | get_module_config_request t =>
        simp only [handleReceivedProtobuf, Option.some.injEq, Prod.mk.injEq] at hrun
        exact absurd (by rw [← hrun.2]; simp [handleGetModuleConfig, hq, AdminState.log])
          hwritten
      | get_channel_request n =>
        simp only [handleReceivedProtobuf] at hrun
        by_cases hi : wrapU32 ((n : Int) - 1) ≥ E.MAX_NUM_CHANNELS
        · rw [if_pos hi] at hrun
          simp only [Option.some.injEq, Prod.mk.injEq] at hrun
          exact Or.inr (Or.inl ⟨n, rfl, hi, by rw [← hrun.2]⟩)
        · rw [if_neg hi] at hrun
          simp only [Option.some.injEq, Prod.mk.injEq] at hrun
          exact absurd (by rw [← hrun.2]; simp [handleGetChannel, hq, AdminState.log]) hwritten
      | set_owner o =>
        simp only [handleReceivedProtobuf, Option.some.injEq, Prod.mk.injEq] at hrun
        exact absurd (by rw [← hrun.2]; exact ho o) hwritten
      | set_radio rc =>
        simp only [handleReceivedProtobuf, Option.some.injEq, Prod.mk.injEq] at hrun
        exact absurd (by rw [← hrun.2]; exact hr rc) hwritten
      | set_config c =>
        simp only [handleReceivedProtobuf, Option.some.injEq, Prod.mk.injEq] at hrun
        exact absurd (by rw [← hrun.2]; exact hc c) hwritten
      | set_module_config c =>
        simp only [handleReceivedProtobuf, Option.some.injEq, Prod.mk.injEq] at hrun
        exact absurd (by rw [← hrun.2]; exact hm c) hwritten
      | set_channel cc =>
        simp only [handleReceivedProtobuf] at hrun
        by_cases hi : cc.index < 0 ∨ cc.index ≥ wrapI32 (E.MAX_NUM_CHANNELS : Int)
        · rw [if_pos hi] at hrun
          simp only [Option.some.injEq, Prod.mk.injEq] at hrun
          exact Or.inr (Or.inr (Or.inl ⟨cc, rfl, hi, by rw [← hrun.2]⟩))
        · rw [if_neg hi] at hrun
          simp only [Option.some.injEq, Prod.mk.injEq] at hrun
          exact absurd (by rw [← hrun.2]; exact hch cc) hwritten
      | reboot_seconds sec =>
        simp only [handleReceivedProtobuf, Option.some.injEq, Prod.mk.injEq] at hrun
        exact absurd (by rw [← hrun.2]) hwritten
      | shutdown_seconds sec =>
        simp only [handleReceivedProtobuf, Option.some.injEq, Prod.mk.injEq] at hrun
        exact absurd (by rw [← hrun.2]) hwritten
      | exit_simulator =>
        have hP : E.PORTDUINO = true := by simpa [hasExplicitCase] using hx1
        simp [handleReceivedProtobuf, hP] at hrun
      | unset => simp [hasExplicitCase] at hx1
      | get_owner_response o => simp [hasExplicitCase] at hx1
      | get_radio_response rc => simp [hasExplicitCase] at hx1
      | get_config_response c => simp [hasExplicitCase] at hx1
      | get_module_config_response c => simp [hasExplicitCase] at hx1
      | get_channel_response c => simp [hasExplicitCase] at hx1
      | other tag => simp [hasExplicitCase] at hx1

/-- Witness for the amended C16: a get-owner request with `want_response` set fills the
empty reply slot of the sample node. -/
theorem reply_written_only_if_witness :
    (handleReceivedProtobuf sampleCollaborators samplePacket .get_owner_request sampleState =
        some (false,
          { sampleState with
              myReply := some (.allocDataProtobuf (.get_owner_response sampleState.owner))
              calls := [.handleGetOwner] }) ∧
      some (Reply.allocDataProtobuf (.get_owner_response sampleState.owner)) ≠
        sampleState.myReply) ∧
    ((isGetRequest .get_owner_request = true ∧ samplePacket.decoded.want_response = true) ∨
      (∃ n, AdminMessage.get_owner_request = .get_channel_request n ∧
        sampleCollaborators.MAX_NUM_CHANNELS ≤ wrapU32 ((n : Int) - 1) ∧
        some (Reply.allocDataProtobuf (.get_owner_response sampleState.owner)) =
          some (.allocErrorResponse .BAD_REQUEST samplePacket)) ∨
      (∃ cc, AdminMessage.get_owner_request = .set_channel cc ∧
        (cc.index < 0 ∨ cc.index ≥ wrapI32 (sampleCollaborators.MAX_NUM_CHANNELS : Int)) ∧
        some (Reply.allocDataProtobuf (.get_owner_response sampleState.owner)) =
          some (.allocErrorResponse .BAD_REQUEST samplePacket)) ∨
      (hasExplicitCase sampleCollaborators .get_owner_request = false ∧
        (sampleCollaborators.handleAdminMessageForAllPlugins samplePacket .get_owner_request
            AdminMessage_init_default).1 = .HANDLED_WITH_RESPONSE)) :=
  ⟨⟨by decide, by decide⟩,
    reply_written_only_if sampleCollaborators samplePacket .get_owner_request sampleState
      { sampleState with
          myReply := some (.allocDataProtobuf (.get_owner_response sampleState.owner))
          calls := [.handleGetOwner] }
      false (by decide) (by decide)⟩

/-! ## Deadlines as timestamps -/

/-- The value both lifecycle cases store, when the sum does not reach `2^32`. -/
theorem deadline_of_no_wrap (now : Nat) (sec : Int) (h0 : 0 ≤ sec)
    (hlt : (now : Int) + 1000 * sec < 4294967296) :
    (((if sec < 0 then 0 else wrapU32 ((now : Int) + wrapI32 (sec * 1000)) : Nat)) : Int) =
      (now : Int) + 1000 * sec := by
  have hs : ¬ sec < 0 := by omega
  rw [if_neg hs, wrapU32_add_wrapI32]
  unfold wrapU32
  omega

/-- C17, as stated, fails: with the clock at `4294966296` (one second before it wraps),
reboot-after(1) and shutdown-after(1) store the deadline 0, which is the "unset" value and
is earlier than the clock reading. -/
theorem deadline_zero_after_wrap :
    (0 : Int) ≤ 1 ∧ sampleCollaboratorsNearWrap.millis = 4294966296 ∧
    handleReceivedProtobuf sampleCollaboratorsNearWrap samplePacketQuiet (.reboot_seconds 1)
        { sampleState with rebootAtMsec := 123 } =
      some (false, { sampleState with rebootAtMsec := 0 }) ∧
    handleReceivedProtobuf sampleCollaboratorsNearWrap samplePacketQuiet (.shutdown_seconds 1)
        { sampleState with shutdownAtMsec := 123 } =
      some (false, { sampleState with shutdownAtMsec := 0 }) ∧
    (0 : Nat) < sampleCollaboratorsNearWrap.millis := by
  refine ⟨by decide, rfl, ?_, ?_, by decide⟩ <;> decide

/-- C17, amended: for `s ≥ 0` and a clock reading `now` with `0 < now + 1000 * s < 2^32`,
after reboot-after(s) the reboot deadline is `now + 1000 * s`, hence different from the
"unset" value 0 and not earlier than `now`; likewise for shutdown-after(s) and the shutdown
deadline. -/
theorem lifecycle_deadline_set_when_no_wrap (E : Collaborators) (mp : MeshPacket) (sec : Int)
    (s : AdminState) (h0 : 0 ≤ sec) (hpos : 0 < (E.millis : Int) + 1000 * sec)
    (hlt : (E.millis : Int) + 1000 * sec < 4294967296) :
    ∃ s1 s2,
      handleReceivedProtobuf E mp (.reboot_seconds sec) s = some (false, s1) ∧
      handleReceivedProtobuf E mp (.shutdown_seconds sec) s = some (false, s2) ∧
      s1.rebootAtMsec ≠ 0 ∧ E.millis ≤ s1.rebootAtMsec ∧
      (s1.rebootAtMsec : Int) = (E.millis : Int) + 1000 * sec ∧
      s2.shutdownAtMsec ≠ 0 ∧ E.millis ≤ s2.shutdownAtMsec ∧
      (s2.shutdownAtMsec : Int) = (E.millis : Int) + 1000 * sec := by
  have hv := deadline_of_no_wrap E.millis sec h0 hlt
  refine ⟨_, _, rfl, rfl, ?_, ?_, hv, ?_, ?_, hv⟩
  · show (if sec < 0 then 0 else wrapU32 ((E.millis : Int) + wrapI32 (sec * 1000))) ≠ 0
    omega
  · show E.millis ≤ (if sec < 0 then 0 else wrapU32 ((E.millis : Int) + wrapI32 (sec * 1000)))
    omega
  · show (if sec < 0 then 0 else wrapU32 ((E.millis : Int) + wrapI32 (sec * 1000))) ≠ 0
    omega
  · show E.millis ≤ (if sec < 0 then 0 else wrapU32 ((E.millis : Int) + wrapI32 (sec * 1000)))
    omega

/-- Witness for the amended C17: at clock 5000, reboot-after(30) and shutdown-after(30). -/
theorem lifecycle_deadline_set_when_no_wrap_witness :
    ((0 : Int) ≤ 30 ∧ 0 < (sampleCollaborators.millis : Int) + 1000 * 30 ∧
      (sampleCollaborators.millis : Int) + 1000 * 30 < 4294967296) ∧
    ∃ s1 s2,
      handleReceivedProtobuf sampleCollaborators samplePacket (.reboot_seconds 30)
        sampleState = some (false, s1) ∧
      handleReceivedProtobuf sampleCollaborators samplePacket (.shutdown_seconds 30)
        sampleState = some (false, s2) ∧
      s1.rebootAtMsec ≠ 0 ∧ sampleCollaborators.millis ≤ s1.rebootAtMsec ∧
      (s1.rebootAtMsec : Int) = (sampleCollaborators.millis : Int) + 1000 * 30 ∧
      s2.shutdownAtMsec ≠ 0 ∧ sampleCollaborators.millis ≤ s2.shutdownAtMsec ∧
      (s2.shutdownAtMsec : Int) = (sampleCollaborators.millis : Int) + 1000 * 30 :=
  ⟨⟨by decide, by decide, by decide⟩,
    lifecycle_deadline_set_when_no_wrap sampleCollaborators samplePacket 30 sampleState
      (by decide) (by decide) (by decide)⟩

/-! ## The get-channel field is the index plus one -/

/-- C18: for a 32-bit field value `k` (and `MAX_NUM_CHANNELS` below `2^32`), the outcome of a
get-channel request is the BAD_REQUEST error reply with nothing else called exactly when
`k = 0` or `k > MAX_NUM_CHANNELS`; for `1 ≤ k ≤ MAX_NUM_CHANNELS` the dispatcher calls
`handleGetChannel` with index `k - 1`, which lies in `[0, MAX_NUM_CHANNELS)`, and the
reply, when `want_response` is set, carries `channels.getByIndex(k - 1)`, while without
`want_response` the slot is left as it was. -/
theorem get_channel_field_is_one_based (E : Collaborators) (mp : MeshPacket) (k : Nat)
    (s : AdminState) (hk : k < 4294967296) (hM : E.MAX_NUM_CHANNELS < 4294967296) :
    (handleReceivedProtobuf E mp (.get_channel_request k) s =
        some (false, { s with myReply := some (.allocErrorResponse .BAD_REQUEST mp) }) ↔
      (k = 0 ∨ E.MAX_NUM_CHANNELS < k)) ∧
    (1 ≤ k ∧ k ≤ E.MAX_NUM_CHANNELS →
      k - 1 < E.MAX_NUM_CHANNELS ∧
      ∃ s1, handleReceivedProtobuf E mp (.get_channel_request k) s = some (false, s1) ∧
        s1 = handleGetChannel E mp (k - 1) s ∧
        s1.calls = s.calls ++ [.handleGetChannel (k - 1)] ∧
        s1.channels = s.channels ∧
        (mp.decoded.want_response = true →
          s1.myReply =
            some (.allocDataProtobuf (.get_channel_response (E.getByIndex s.channels (k - 1))))) ∧
        (mp.decoded.want_response = false → s1.myReply = s.myReply)) := by
  have hin : 1 ≤ k ∧ k ≤ E.MAX_NUM_CHANNELS →
      wrapU32 ((k : Int) - 1) = k - 1 ∧ k - 1 < E.MAX_NUM_CHANNELS := by
    intro h
    unfold wrapU32
    omega
  have hout : (k = 0 ∨ E.MAX_NUM_CHANNELS < k) →
      wrapU32 ((k : Int) - 1) ≥ E.MAX_NUM_CHANNELS := by
    intro h
    unfold wrapU32
    omega
  have hrun : 1 ≤ k ∧ k ≤ E.MAX_NUM_CHANNELS →
      handleReceivedProtobuf E mp (.get_channel_request k) s =
        some (false, handleGetChannel E mp (k - 1) s) := by
    intro h
    obtain ⟨hw, hlt⟩ := hin h
    simp only [handleReceivedProtobuf]
    rw [hw, if_neg (by omega)]
  have hcalls : (handleGetChannel E mp (k - 1) s).calls = s.calls ++ [.handleGetChannel (k - 1)] := by
    by_cases hw : mp.decoded.want_response = true <;>
      simp [handleGetChannel, hw, AdminState.log]
  refine ⟨⟨?_, ?_⟩, ?_⟩
  · intro heq
    by_contra hnot
    have h : 1 ≤ k ∧ k ≤ E.MAX_NUM_CHANNELS := by omega
    rw [hrun h] at heq
    simp only [Option.some.injEq, Prod.mk.injEq, true_and] at heq
    have hc := congrArg AdminState.calls heq
    rw [hcalls] at hc
    simp at hc
  · intro h
    simp only [handleReceivedProtobuf]
    rw [if_pos (hout h)]
  · intro h
    refine ⟨(hin h).2, handleGetChannel E mp (k - 1) s, hrun h, rfl, hcalls, ?_, ?_, ?_⟩
    · by_cases hw : mp.decoded.want_response = true <;>
        simp [handleGetChannel, hw, AdminState.log]
    · intro hw
      simp [handleGetChannel, hw, AdminState.log]
    · intro hw
      simp [handleGetChannel, hw, AdminState.log]

/-- Witness for C18: field value 3 on the sample node is answered with the channel at
index 2. -/
theorem get_channel_field_is_one_based_witness :
    ((3 : Nat) < 4294967296 ∧ sampleCollaborators.MAX_NUM_CHANNELS < 4294967296 ∧
      (1 ≤ 3 ∧ 3 ≤ sampleCollaborators.MAX_NUM_CHANNELS) ∧
      samplePacket.decoded.want_response = true) ∧
    3 - 1 < sampleCollaborators.MAX_NUM_CHANNELS ∧
    ∃ s1, handleReceivedProtobuf sampleCollaborators samplePacket (.get_channel_request 3)
        sampleState = some (false, s1) ∧
      s1.calls = sampleState.calls ++ [.handleGetChannel (3 - 1)] ∧
      s1.myReply =
        some (.allocDataProtobuf
          (.get_channel_response (sampleCollaborators.getByIndex sampleState.channels (3 - 1)))) := by
  refine ⟨⟨by decide, by decide, by decide, rfl⟩, ?_⟩
  obtain ⟨hlt, s1, h1, _, h3, _, h5, _⟩ :=
    (get_channel_field_is_one_based sampleCollaborators samplePacket 3 sampleState
      (by decide) (by decide)).2 (by decide)
  exact ⟨hlt, s1, h1, h3, h5 rfl⟩

/-! ## Repeating a set-owner request -/

/-- C19: a second set-owner request with the same `o`, right after the first, leaves the
stored owner unchanged and does not call `service.reloadOwner`: the only new entry in the
call log is the handler itself. -/
theorem set_owner_twice_is_idempotent (E1 E2 : Collaborators) (mp1 mp2 : MeshPacket) (o : User)
    (s : AdminState) :
    ∃ s1 s2, handleReceivedProtobuf E1 mp1 (.set_owner o) s = some (false, s1) ∧
      handleReceivedProtobuf E2 mp2 (.set_owner o) s1 = some (false, s2) ∧
      s2.owner = s1.owner ∧
      s2.calls = s1.calls ++ [.handleSetOwner o] ∧
      s2.calls.count .service_reloadOwner = s1.calls.count .service_reloadOwner := by
  have hnd : ¬ ownerFieldsDiffer (mergeOwner s.owner o) o := by
    obtain ⟨oid, olong, oshort, olic⟩ := o
    by_cases h1 : olong = "" <;> by_cases h2 : oshort = "" <;> by_cases h3 : oid = "" <;>
      simp [ownerFieldsDiffer, mergeOwner, h1, h2, h3]
  have hmm : mergeOwner (mergeOwner s.owner o) o = mergeOwner s.owner o := by
    by_contra hne
    exact hnd ((ownerFieldsDiffer_iff_merge_ne _ _).2 hne)
  have hcalls : (handleSetOwner o (handleSetOwner o s)).calls =
      (handleSetOwner o s).calls ++ [.handleSetOwner o] := by
    rw [handleSetOwner_eq o (handleSetOwner o s)]
    have ho : (handleSetOwner o s).owner = mergeOwner s.owner o := by rw [handleSetOwner_eq]
    simp [ho, hnd]
  refine ⟨handleSetOwner o s, handleSetOwner o (handleSetOwner o s), rfl, rfl, ?_, hcalls, ?_⟩
  · rw [handleSetOwner_eq o (handleSetOwner o s)]
    have ho : (handleSetOwner o s).owner = mergeOwner s.owner o := by rw [handleSetOwner_eq]
    simp [ho, hmm]
  · rw [hcalls]
    simp [List.count_append, List.count_cons]

end Meshtastic
